import Mathlib

/-!
Verification of the gobot I2C temperature-sensor drivers (MLX90614, TMP007,
CaliPile).  The repository contains two revisions of the MLX90614 driver
(drivers/i2c/mlx90614_driver.go, called MlxBlock below, which frames writes as
4-byte block transactions, and unnamed/part_002, called MlxWord below, which
uses word-data bus primitives) and two revisions of the TMP007 driver
(drivers/i2c/tmp007.go, called Tmp007 below, and unnamed/part_001, called
Tmp007Old below).  Both revisions of each driver are embedded where they
differ, because several properties hold in one revision and not the other.

Bus transactions are modelled by explicit parameters: each bus call's outcome
is an input of the embedded function, and the list of bus operations the
driver issues is returned alongside the result, so ordering and
no-bus-activity properties are statements about that list.  Go float64
arithmetic is modelled with exact rationals, Go uint8/uint16 with Nat plus
explicit mod-2^w at the conversions the source performs, and Go int16 with Int
via a two's-complement decode.  Sleeps are not modelled (no claim depends on
real time).
-/

/-- Register constants from mlx90614_driver.go / part_002. -/
def mlx90614RegisterKE : Nat := 0x24

/-- Config register address (EEPROM cell 0x25). -/
def mlx90614RegisterConfig : Nat := 0x25

/-- Slave-address EEPROM cell. -/
def mlx90614RegisterAddress : Nat := 0x2E

/-- Default SMBus slave address of the MLX90614. -/
def mlx90614DefaultSlaveAddress : Nat := 0x5A

/-- One iteration of the loop body of crc8ccitt: shift the byte left by one
(with uint8 wrap-around) and xor with 0x07 if the shifted value has its top
bit set.  Source: mlx90614_driver.go lines 152-157 (identical in part_002,
where the function does not appear but the PEC is never recomputed). -/
def crc8round (d : Nat) : Nat :=
  let d2 := (d * 2) % 256
  if d2 &&& 0x80 ≠ 0 then d2 ^^^ 0x07 else d2

/-- CRC-8-CCITT step, polynomial x^8 + x^2 + x^1 + x^0: xor the data byte into
the running CRC and run the 8-fold shift loop.  Source: crc8ccitt,
mlx90614_driver.go lines 149-160. -/
def crc8ccitt (inCRC inData : Nat) : Nat :=
  crc8round (crc8round (crc8round (crc8round (crc8round (crc8round
    (crc8round (crc8round ((inCRC ^^^ inData) % 256))))))))

/-- A CRC chain over a byte sequence, starting from 0.  Both the write-path
PEC generator (lines 169-172) and the read-path PEC checker (lines 208-212)
are literal unrollings of this fold over their respective virtual byte
sequences. -/
def pecChain (bytes : List Nat) : Nat :=
  bytes.foldl crc8ccitt 0

/-- The read-path PEC comparison (mlx90614_driver.go line 214): recompute the
chain over a virtual byte sequence and compare byte-exact with the
device-supplied PEC. -/
def pecCheck (virtualBytes : List Nat) (pecIncoming : Nat) : Bool :=
  pecChain virtualBytes == pecIncoming

/-- FIR settling lookup table (identical Go map literal in both revisions,
mlx90614_driver.go lines 436-441).  A missed key yields the Go zero value 0. -/
def firSettingsMap (fir : Nat) : ℚ :=
  if fir = 0x04 then 5.184
  else if fir = 0x05 then 9.28
  else if fir = 0x06 then 17.472
  else if fir = 0x07 then 33.856
  else 0

/-- IIR settling lookup table (identical Go map literal in both revisions,
mlx90614_driver.go lines 443-452).  A missed key yields the Go zero value 0. -/
def iirSettingsMap (iir : Nat) : ℚ :=
  if iir = 0x00 then 10
  else if iir = 0x01 then 10
  else if iir = 0x02 then 10
  else if iir = 0x03 then 10
  else if iir = 0x04 then 1
  else if iir = 0x05 then 4
  else if iir = 0x06 then 8
  else if iir = 0x07 then 9
  else 0

/-- A bus operation issued by a driver, as seen by the connection. -/
inductive BusOp where
  | readReg : Nat → BusOp
  | writeBlock : Nat → List Nat → BusOp
  | writeWord : Nat → Nat → BusOp
deriving DecidableEq, Repr

namespace MlxBlock

/-- Write-path PEC (mlx90614_driver.go lines 168-172): CRC chained over the
slave write address (7-bit address shifted left one, truncated to uint8), the
register, the data low byte and the data high byte, starting from 0. -/
def writePEC (a reg lsb msb : Nat) : Nat :=
  crc8ccitt (crc8ccitt (crc8ccitt (crc8ccitt 0 ((a <<< 1) % 256)) reg) lsb) msb

/-- The 4-byte block packet the write path sends (line 176):
register, data low byte, data high byte, PEC. -/
def writePacket (a reg data : Nat) : List Nat :=
  [reg, data % 256, (data % 65536) / 256,
   writePEC a reg (data % 256) ((data % 65536) / 256)]

/-- MLX90614Driver.write of mlx90614_driver.go (lines 164-177): always sends
the block packet; the protected-register guard exists only as a TODO comment
(line 163) in this revision.  The argument busRes is the connection's response
to the block write. -/
def write (busRes : Option String) (a reg data : Nat) :
    Option String × List BusOp :=
  (busRes, [BusOp.writeBlock reg (writePacket a reg data)])

/-- Read-path PEC (mlx90614_driver.go lines 207-212): CRC chained over the
slave write address, the register, the slave read address (write address plus
one, uint8 wrap) and the two data bytes. -/
def readPEC (a reg lsb msb : Nat) : Nat :=
  crc8ccitt (crc8ccitt (crc8ccitt (crc8ccitt (crc8ccitt 0 ((a <<< 1) % 256))
    reg) (((a <<< 1) % 256 + 1) % 256)) lsb) msb

/-- MLX90614Driver.read for n = 3 (lines 180-219), success path of the
transport: the connection delivered the three response bytes b0 b1 b2
(lsb, msb, pec in the source's naming); the recomputed PEC is compared
byte-exact and a mismatch is an error. -/
def read3 (a reg b0 b1 b2 : Nat) : Except String (List Nat) :=
  if b2 % 256 = readPEC a reg (b0 % 256) (b1 % 256) then Except.ok [b0, b1, b2]
  else Except.error "MLX90614 read PEC mismatch"

/-- MLX90614Driver.readUint16 (lines 221-229): raw is the FIRST response byte
shifted into the high half or-ed with the SECOND response byte. -/
def readUint16 (a reg b0 b1 b2 : Nat) : Except String Nat :=
  match read3 a reg b0 b1 b2 with
  | Except.error e => Except.error e
  | Except.ok b => Except.ok (((b.getD 0 0 % 256) <<< 8) ||| (b.getD 1 0 % 256))

/-- MLX90614Driver.ReadAddress (lines 278-285): read the slave-address cell
and truncate the 16-bit value to uint8. -/
def ReadAddress (a b0 b1 b2 : Nat) : Except String Nat :=
  match readUint16 a mlx90614RegisterAddress b0 b1 b2 with
  | Except.error e => Except.error e
  | Except.ok addr16 => Except.ok (addr16 % 256)

/-- EEPROM write error, tagged with the phase that failed (the two distinct
wrapper messages of mlx90614_driver.go lines 245 and 251). -/
inductive EepromPhaseErr where
  | erasePhase : String → EepromPhaseErr
  | writePhase : String → EepromPhaseErr
deriving DecidableEq, Repr

/-- MLX90614Driver.writeEEPROM (lines 241-257): write zero to erase, return
the erase-phase error on failure, otherwise write the data and return the
write-phase error on failure.  r1 and r2 are the connection's responses to
the two writes; the 5 ms sleeps are not modelled. -/
def writeEEPROM (r1 r2 : Option String) (a reg data : Nat) :
    Option EepromPhaseErr × List BusOp :=
  match write r1 a reg 0 with
  | (some e, ops) => (some (EepromPhaseErr.erasePhase e), ops)
  | (none, ops1) =>
    match write r2 a reg data with
    | (some e, ops2) => (some (EepromPhaseErr.writePhase e), ops1 ++ ops2)
    | (none, ops2) => (none, ops1 ++ ops2)

/-- Error cases of WriteFilterConfig in this revision. -/
inductive CfgErr where
  | firTooSmall : CfgErr
  | overflow3bit : CfgErr
  | readFailed : String → CfgErr
  | eepromFailed : EepromPhaseErr → CfgErr
deriving DecidableEq, Repr

/-- The config update of mlx90614_driver.go lines 460-468: the new FIR and
IIR bits are OR-ed into the previously read config word without clearing the
old field bits. -/
def updatedConfig (config fir iir : Nat) : Nat :=
  (config ||| (fir <<< 8)) ||| iir

/-- MLX90614Driver.WriteFilterConfig of mlx90614_driver.go (lines 413-477).
cfgRes is the outcome of the config-register read, r1 r2 the outcomes of the
two EEPROM writes.  The settling time is computed from the SUPPLIED fir and
iir; dual is bit 6 of the previously read config word. -/
def WriteFilterConfig (a : Nat) (cfgRes : Except String Nat)
    (r1 r2 : Option String) (fir iir : Nat) :
    ℚ × Option CfgErr × List BusOp :=
  if fir < 0x04 then (0, some CfgErr.firTooSmall, [])
  else if 0x07 < fir ∨ 0x07 < iir then (0, some CfgErr.overflow3bit, [])
  else
    match cfgRes with
    | Except.error e =>
      (0, some (CfgErr.readFailed e), [BusOp.readReg mlx90614RegisterConfig])
    | Except.ok cfg0 =>
      let config := cfg0 % 65536
      let dual : ℚ := if config &&& 0x40 ≠ 0 then 1 else 0
      let firS := firSettingsMap fir
      let iirS := iirSettingsMap iir
      let tSet : ℚ :=
        9.719 + (iirS * (firS + 5.26)) + (iirS * (firS + 12.542))
          + (dual * iirS * (firS + 12.542))
      let ew := writeEEPROM r1 r2 a mlx90614RegisterConfig
        (updatedConfig config fir iir)
      (tSet, ew.1.map CfgErr.eepromFailed,
        BusOp.readReg mlx90614RegisterConfig :: ew.2)

end MlxBlock

namespace MlxWord

/-- Error result of MLX90614Driver.write in part_002: either the
protected-register refusal (lines 173-180) or a bus failure. -/
inductive WriteErr where
  | protectedReg : WriteErr
  | busError : String → WriteErr
deriving DecidableEq, Repr

/-- MLX90614Driver.write of part_002 (lines 172-187): registers 0x24 (KE),
0x19 and 0x0F are refused before any bus activity; otherwise a single
WriteWordData transaction is issued. -/
def write (busRes : Option String) (reg data : Nat) :
    Option WriteErr × List BusOp :=
  if reg = mlx90614RegisterKE ∨ reg = 0x19 ∨ reg = 0x0F then
    (some WriteErr.protectedReg, [])
  else
    match busRes with
    | some e => (some (WriteErr.busError e), [BusOp.writeWord reg data])
    | none => (none, [BusOp.writeWord reg data])

/-- EEPROM write error of part_002, tagged with the failing phase
(distinct wrapper messages, part_002 lines 193 and 199). -/
inductive EepromErr where
  | erasePhase : WriteErr → EepromErr
  | writePhase : WriteErr → EepromErr
deriving DecidableEq, Repr

/-- MLX90614Driver.writeEEPROM of part_002 (lines 189-205): same erase-first
structure as the block revision. -/
def writeEEPROM (r1 r2 : Option String) (reg data : Nat) :
    Option EepromErr × List BusOp :=
  match write r1 reg 0 with
  | (some e, ops) => (some (EepromErr.erasePhase e), ops)
  | (none, ops1) =>
    match write r2 reg data with
    | (some e, ops2) => (some (EepromErr.writePhase e), ops1 ++ ops2)
    | (none, ops2) => (none, ops1 ++ ops2)

/-- MLX90614Driver.SettlingTimeFromConfig of part_002 (lines 425-459):
the settling-time formula evaluated at the FIR bits 10..8 and IIR bits 2..0
of the given config word, with dual taken from bit 6. -/
def SettlingTimeFromConfig (config : Nat) : ℚ :=
  let dual : ℚ := if config &&& 0x40 ≠ 0 then 1 else 0
  let fir := (config &&& 0x700) >>> 8
  let iir := config &&& 0x7
  let firS := firSettingsMap fir
  let iirS := iirSettingsMap iir
  9.719 + (iirS * (firS + 5.26)) + (iirS * (firS + 12.542))
    + (dual * iirS * (firS + 12.542))

/-- The config update of part_002 lines 405-413: clear FIR bits 10..8 and
overwrite them, then clear IIR bits 2..0 and overwrite them. -/
def updatedConfig (config fir iir : Nat) : Nat :=
  ((((config &&& 0xF8FF) ||| (fir <<< 8)) &&& 0xFFF8) ||| iir)

/-- Error cases of WriteFilterConfig in the part_002 revision. -/
inductive CfgErr where
  | firTooSmall : CfgErr
  | overflow3bit : CfgErr
  | readFailed : String → CfgErr
  | eepromFailed : EepromErr → CfgErr
deriving DecidableEq, Repr

/-- MLX90614Driver.WriteFilterConfig of part_002 (lines 387-422): same range
checks as the block revision, but the settling time is computed by
SettlingTimeFromConfig from the PREVIOUSLY READ config word, not from the
supplied fir and iir. -/
def WriteFilterConfig (cfgRes : Except String Nat) (r1 r2 : Option String)
    (fir iir : Nat) : ℚ × Option CfgErr × List BusOp :=
  if fir < 0x04 then (0, some CfgErr.firTooSmall, [])
  else if 0x07 < fir ∨ 0x07 < iir then (0, some CfgErr.overflow3bit, [])
  else
    match cfgRes with
    | Except.error e =>
      (0, some (CfgErr.readFailed e), [BusOp.readReg mlx90614RegisterConfig])
    | Except.ok cfg0 =>
      let config := cfg0 % 65536
      let tSet := SettlingTimeFromConfig config
      let ew := writeEEPROM r1 r2 mlx90614RegisterConfig
        (updatedConfig config fir iir)
      (tSet, ew.1.map CfgErr.eepromFailed,
        BusOp.readReg mlx90614RegisterConfig :: ew.2)

end MlxWord

namespace Tmp007

/-- Two's-complement decode of a 16-bit pattern into a Go int16 value. -/
def toInt16 (bits : Nat) : Int :=
  if bits % 65536 < 32768 then ((bits % 65536 : Nat) : Int)
  else ((bits % 65536 : Nat) : Int) - 65536

/-- nDVtoBool of tmp007.go (lines 158-163): the reading is valid exactly when
the not-a-new-data-valid flag, bit 0 of the raw int16, is clear.  Bit 0 of a
two's-complement value is its value mod 2. -/
def nDVtoBool (raw : Int) : Bool :=
  if raw % 2 ≠ 0 then false else true

/-- TMP007Driver.ReadDieTempC of tmp007.go (lines 166-183), transport success
path with response bytes b0 b1: assemble the big-endian int16, reject the
reading when the nDV bit is set, otherwise shift out the two status bits
(arithmetic shift, i.e. floor division by 4) and scale by 0.03125 degC/LSB. -/
def ReadDieTempC (b0 b1 : Nat) : Except String ℚ :=
  let raw := toInt16 ((b0 % 256) * 256 + b1 % 256)
  if nDVtoBool raw = false then Except.error "nDV bit is set"
  else Except.ok (((raw.fdiv 4 : Int) : ℚ) * 0.03125)

/-- TMP007Driver.ReadObjTempC of tmp007.go (lines 186-203): identical nDV
check, shift and scaling, on the object-temperature register. -/
def ReadObjTempC (b0 b1 : Nat) : Except String ℚ :=
  let raw := toInt16 ((b0 % 256) * 256 + b1 % 256)
  if nDVtoBool raw = false then Except.error "nDV bit is set"
  else Except.ok (((raw.fdiv 4 : Int) : ℚ) * 0.03125)

/-- The retry loop of TMP007Driver.read in tmp007.go (lines 139-146).  The
i-th connection.Read attempt is modelled by att i = (bytesRead, error,
buffer contents after the attempt).  The loop breaks on the first attempt
with a full read and nil error; on exhaustion the last attempt's buffer and
error are returned. -/
def readLoop (n : Nat) (att : Nat → Nat × Option String × List Nat) :
    Nat → Nat → List Nat → Option String → List Nat × Option String
  | 0, _, buf, err => (buf, err)
  | Nat.succ r, i, _, _ =>
    let a := att i
    if a.1 = n ∧ a.2.1 = none then (a.2.2, none)
    else readLoop n att r (i + 1) a.2.2 a.2.1

/-- TMP007Driver.read of tmp007.go (lines 130-149), after a successful
command write: run up to 50 read attempts over the n-byte buffer (initially
zeroed by make) and return the buffer together with the last error.  The
buffer is returned even when the error is non-nil. -/
def read (n : Nat) (att : Nat → Nat × Option String × List Nat) :
    List Nat × Option String :=
  readLoop n att 50 0 (List.replicate n 0) none

end Tmp007

namespace Tmp007Old

/-- TMP007Driver.read of the early revision part_001 (lines 116-128), after a
successful command write: a single connection.Read attempt; if it reports
fewer than n bytes OR an error, the function returns a nil buffer together
with that error - which is nil itself when only the byte count was short. -/
def read (n : Nat) (bytesRead : Nat) (err : Option String)
    (content : List Nat) : Option (List Nat) × Option String :=
  if bytesRead ≠ n ∨ err ≠ none then (none, err)
  else (some content, none)

/-- TMP007Driver.ReadDieTempC of part_001 (lines 131-141): the read error is
discarded and the buffer indexed unconditionally; no nDV validity check is
performed and no error can be returned.  Indexing the nil buffer (the none
case) is a Go runtime panic, modelled as none. -/
def ReadDieTempC (readRes : Option (List Nat)) : Option ℚ :=
  match readRes with
  | none => none
  | some b =>
    some ((((Tmp007.toInt16 ((b.getD 0 0 % 256) * 256 + b.getD 1 0 % 256)).fdiv 4
      : Int) : ℚ) * 0.03125)

end Tmp007Old

namespace Calipile

/-- EEPROM calibration state of calipile_driver.go (lines 67-78), restricted
to the fields the ambient-temperature path reads.  m is the stored value
after the integer division by 100 performed at EEPROM read (line 208). -/
structure Eeprom where
  ptat25 : Nat
  m : Nat
deriving DecidableEq, Repr

/-- CalipileDriver.ReadRawTPAmbient of calipile_driver.go (lines 266-280):
assemble the 15-bit raw ambient value from the two register bytes, masking
the top bit of the high byte. -/
def ReadRawTPAmbient (h l : Nat) : Nat :=
  (((h % 256) &&& 0x7F) <<< 8) ||| (l % 256)

/-- CalipileDriver.CalculateTPAmbient of calipile_driver.go (lines 283-293):
Tamb in Kelvin is 298.15 + (rawAmbient - PTAT25) * (1 / M). -/
def CalculateTPAmbient (e : Eeprom) (h l : Nat) : ℚ :=
  298.15 + (((ReadRawTPAmbient h l : Nat) : ℚ) - (e.ptat25 : ℚ))
    * (1 / (e.m : ℚ))

/-- CalipileDriver.CalculateTPAmbientC of calipile_driver.go (lines 296-301):
the body calls CalculateTPAmbientC - itself - instead of the Kelvin variant,
then subtracts 273.15.  The unbounded recursion is modelled with explicit
fuel; none models a call that has not returned within the given budget. -/
def CalculateTPAmbientC : Nat → Eeprom → Nat → Nat → Option ℚ
  | 0, _, _, _ => none
  | Nat.succ fuel, e, h, l =>
    match CalculateTPAmbientC fuel e h l with
    | none => none
    | some v => some (v - 273.15)

end Calipile

/-- Any successful Go map-free reading of the read-path PEC as a chain: the
five chained crc8ccitt calls of mlx90614_driver.go lines 208-212 are the fold
of crc8ccitt over the read path's virtual byte sequence. -/
theorem readPEC_eq_pecChain (a reg lsb msb : Nat) :
    MlxBlock.readPEC a reg lsb msb
      = pecChain [(a <<< 1) % 256, reg, ((a <<< 1) % 256 + 1) % 256, lsb, msb] :=
  rfl

/-- The read path accepts a response exactly when the device PEC passes
pecCheck over the read path's virtual byte sequence. -/
theorem read3_accepts_iff (a reg b0 b1 b2 : Nat) :
    (∃ b, MlxBlock.read3 a reg b0 b1 b2 = Except.ok b)
      ↔ pecCheck [(a <<< 1) % 256, reg, ((a <<< 1) % 256 + 1) % 256,
          b0 % 256, b1 % 256] (b2 % 256) = true := by
  unfold MlxBlock.read3 pecCheck
  rw [← readPEC_eq_pecChain]
  constructor
  · rintro ⟨b, hb⟩
    by_cases h : b2 % 256 = MlxBlock.readPEC a reg (b0 % 256) (b1 % 256)
    · simp [h, beq_iff_eq]
    · simp [h] at hb
  · intro h
    rw [beq_iff_eq] at h
    exact ⟨[b0, b1, b2], by simp [h]⟩

/-- Claim C2: for every register and 16-bit data value, the 4-byte packet
built by the MLX90614 write path validates through the read-path PEC checker
applied to the same virtual byte sequence: recomputing the CRC chain over the
slave write address, the register and the packet's two data bytes reproduces
the packet's PEC byte exactly. -/
theorem c2_pec_roundtrip (a reg data : Nat) :
    pecCheck [(a <<< 1) % 256, reg, data % 256, (data % 65536) / 256]
      ((MlxBlock.writePacket a reg data).getD 3 0) = true := by
  simp [pecCheck, pecChain, MlxBlock.writePacket, MlxBlock.writePEC, List.foldl]

set_option maxRecDepth 20000 in
/-- Claim C6 counterexample: when the bus responds with the three bytes
0x5A, 0x00 and the PEC valid for exactly that response, ReadAddress returns
0x00, not 0x5A: readUint16 places the FIRST response byte in the high half,
so the claimed response byte order is swapped.  The repository's own test
uses the response 0x00, 0x5A, 0xC9 for address 0x5A. -/
theorem c6_counterexample :
    MlxBlock.ReadAddress 0x5A 0x5A 0x00 (MlxBlock.readPEC 0x5A 0x2E 0x5A 0x00)
      = Except.ok 0x00
    ∧ (0x00 : Nat) ≠ 0x5A :=
  ⟨rfl, by decide⟩

set_option maxRecDepth 20000 in
/-- Claim C6 (amended): ReadAddress returns 0x5A without error when the bus
responds with the bytes 0x00, 0x5A and the valid PEC 0xC9 - the low byte
first, as in the repository's own driver test. -/
theorem c6_amended :
    MlxBlock.ReadAddress 0x5A 0x00 0x5A 0xC9 = Except.ok 0x5A
    ∧ MlxBlock.readPEC 0x5A mlx90614RegisterAddress 0x00 0x5A = 0xC9 :=
  ⟨rfl, rfl⟩

/-- Claim C8: for every stored calibration state and raw ambient reading, the
CaliPile ambient temperature is 298.15 + (rawAmbient - PTAT25) * (1/M); in
particular PTAT25 = 8192, M = 100 and rawAmbient = 8292 (register bytes 0x20,
0x64) give 299.15 K. -/
theorem c8_ambient :
    (∀ (e : Calipile.Eeprom) (h l : Nat),
      Calipile.CalculateTPAmbient e h l
        = 298.15 + ((Calipile.ReadRawTPAmbient h l : ℚ) - (e.ptat25 : ℚ))
            * (1 / (e.m : ℚ)))
    ∧ Calipile.ReadRawTPAmbient 0x20 0x64 = 8292
    ∧ Calipile.CalculateTPAmbient ⟨8192, 100⟩ 0x20 0x64 = 299.15 := by
  have h1 : Calipile.ReadRawTPAmbient 0x20 0x64 = 8292 := by decide
  refine ⟨fun e h l => rfl, h1, ?_⟩
  unfold Calipile.CalculateTPAmbient
  rw [h1]
  norm_num

/-- Claim C9: CalculateTPAmbientC never terminates - the body recursively
calls itself instead of the Kelvin variant, so under every finite recursion
budget it produces no value, and in particular never the claimed
CalculateTPAmbient minus 273.15. -/
theorem c9_bug (fuel : Nat) (e : Calipile.Eeprom) (h l : Nat) :
    Calipile.CalculateTPAmbientC fuel e h l = none
    ∧ Calipile.CalculateTPAmbientC fuel e h l
        ≠ some (Calipile.CalculateTPAmbient e h l - 273.15) := by
  induction fuel with
  | zero => exact ⟨rfl, by simp [Calipile.CalculateTPAmbientC]⟩
  | succ n ih =>
    refine ⟨?_, ?_⟩ <;> simp [Calipile.CalculateTPAmbientC, ih.1]

/-- Claim C10: in the part_001 revision, when connection.Read reports 0 of 2
requested bytes together with a nil error, read returns a nil buffer with a
nil error, and ReadDieTempC then indexes the nil slice - a runtime panic,
modelled as none. -/
theorem c10_bug :
    Tmp007Old.read 2 0 none [0, 0] = (none, none)
    ∧ Tmp007Old.ReadDieTempC (Tmp007Old.read 2 0 none [0, 0]).1 = none :=
  ⟨rfl, rfl⟩

/-- In the current revision (tmp007.go) the buffer read returns always has
length exactly n, whatever the attempt outcomes, provided each attempt fills
the n-byte buffer - so the claim of C10 holds of that revision. -/
theorem tmp007_readLoop_length (n : Nat)
    (att : Nat → Nat × Option String × List Nat)
    (hatt : ∀ i, ((att i).2.2).length = n) :
    ∀ (r i : Nat) (buf : List Nat) (err : Option String), buf.length = n →
      ((Tmp007.readLoop n att r i buf err).1).length = n := by
  intro r
  induction r with
  | zero => intro i buf err hb; simpa [Tmp007.readLoop] using hb
  | succ k ih =>
    intro i buf err hb
    simp only [Tmp007.readLoop]
    split
    · exact hatt i
    · exact ih (i + 1) _ _ (hatt i)

/-- Corollary of the loop invariant for the exported read. -/
theorem tmp007_read_length (n : Nat)
    (att : Nat → Nat × Option String × List Nat)
    (hatt : ∀ i, ((att i).2.2).length = n) :
    ((Tmp007.read n att).1).length = n :=
  tmp007_readLoop_length n att hatt 50 0 (List.replicate n 0) none
    (List.length_replicate n 0)

/-- Claim C1 counterexample: in the mlx90614_driver.go revision, a write to
the protected KE register 0x24 issues the block transaction on the bus and
returns no protected-register error (the guard is only a TODO comment
there). -/
theorem c1_counterexample :
    (MlxBlock.write none 0x5A mlx90614RegisterKE 0x0001).1 = none
    ∧ (MlxBlock.write none 0x5A mlx90614RegisterKE 0x0001).2
        = [BusOp.writeBlock mlx90614RegisterKE
            (MlxBlock.writePacket 0x5A mlx90614RegisterKE 0x0001)]
    ∧ (MlxBlock.write none 0x5A mlx90614RegisterKE 0x0001).2 ≠ [] :=
  ⟨rfl, rfl, by decide⟩

/-- Claim C1 (amended): in the part_002 revision, for every data value and
every protected register address (0x24, 0x19, 0x0F), write returns the
protected-register error and performs no bus operation of any kind. -/
theorem c1_amended (busRes : Option String) (reg data : Nat)
    (h : reg = mlx90614RegisterKE ∨ reg = 0x19 ∨ reg = 0x0F) :
    MlxWord.write busRes reg data = (some MlxWord.WriteErr.protectedReg, []) := by
  unfold MlxWord.write
  rw [if_pos h]

/-- Witness for c1_amended at the KE register. -/
theorem c1_witness :
    MlxWord.write none mlx90614RegisterKE 0x1234
      = (some MlxWord.WriteErr.protectedReg, []) :=
  c1_amended none mlx90614RegisterKE 0x1234 (Or.inl rfl)

/-- Claim C3 counterexample: when the erase write fails, writeEEPROM returns
the erase-phase error and the bus trace contains only the single erase
operation - the data write phase is never attempted, contrary to the claim. -/
theorem c3_counterexample :
    MlxBlock.writeEEPROM (some "bus failure") none 0x5A mlx90614RegisterConfig 0x1234
      = (some (MlxBlock.EepromPhaseErr.erasePhase "bus failure"),
         [BusOp.writeBlock mlx90614RegisterConfig
           (MlxBlock.writePacket 0x5A mlx90614RegisterConfig 0)])
    ∧ (MlxBlock.writeEEPROM (some "bus failure") none 0x5A
        mlx90614RegisterConfig 0x1234).2.length = 1 :=
  ⟨rfl, rfl⟩

/-- Claim C3 (amended): writeEEPROM always issues the erase write of zero
first; when the erase succeeds, the data write follows it, in that order and
never reordered; the two phases are reported by distinct erase-phase and
write-phase errors; and when the erase fails the erase error is returned at
once and the data write is NOT attempted. -/
theorem c3_amended (r1 r2 : Option String) (a reg data : Nat) :
    (MlxBlock.writeEEPROM r1 r2 a reg data).2.head?
      = some (BusOp.writeBlock reg (MlxBlock.writePacket a reg 0))
    ∧ (r1 = none →
        (MlxBlock.writeEEPROM r1 r2 a reg data).2
          = [BusOp.writeBlock reg (MlxBlock.writePacket a reg 0),
             BusOp.writeBlock reg (MlxBlock.writePacket a reg data)])
    ∧ (∀ e, r1 = some e →
        MlxBlock.writeEEPROM r1 r2 a reg data
          = (some (MlxBlock.EepromPhaseErr.erasePhase e),
             [BusOp.writeBlock reg (MlxBlock.writePacket a reg 0)]))
    ∧ (∀ e, r1 = none → r2 = some e →
        (MlxBlock.writeEEPROM r1 r2 a reg data).1
          = some (MlxBlock.EepromPhaseErr.writePhase e)) := by
  cases r1 <;> cases r2 <;> simp [MlxBlock.writeEEPROM, MlxBlock.write]

/-- Witness for c3_amended: a failing data write is reported as the write
phase. -/
theorem c3_witness :
    (MlxBlock.writeEEPROM none (some "boom") 0x5A mlx90614RegisterConfig 7).1
      = some (MlxBlock.EepromPhaseErr.writePhase "boom") :=
  (c3_amended none (some "boom") 0x5A mlx90614RegisterConfig 7).2.2.2 "boom" rfl rfl

/-- Claim C7 counterexample: the early revision part_001 returns a numeric
temperature (0 degC) for a response whose nDV bit is set - it performs no
validity check and cannot return an error. -/
theorem c7_counterexample :
    Tmp007Old.ReadDieTempC (some [0x00, 0x01]) = some 0
    ∧ (0x00 * 256 + 0x01) % 2 = 1 := by
  refine ⟨?_, rfl⟩
  have h1 : Tmp007.toInt16 (([0x00, 0x01].getD 0 0 % 256) * 256
      + [0x00, 0x01].getD 1 0 % 256) = 1 := by decide
  simp only [Tmp007Old.ReadDieTempC, h1]
  norm_num
  decide

/-- Bit 0 of the two's-complement int16 decode equals the parity of the
16-bit pattern. -/
theorem toInt16_emod_two (n : Nat) :
    Tmp007.toInt16 n % 2 = ((n % 2 : Nat) : Int) := by
  unfold Tmp007.toInt16
  split <;> omega

/-- Claim C7 (amended, scoped to the current revision tmp007.go): for every
16-bit raw response, when the nDV bit (bit 0) is set both temperature readers
return the invalid-data error and never a numeric value; otherwise they
return the raw int16 arithmetically shifted right by the two status bits
(floor division by 4) scaled by 0.03125 degC per LSB. -/
theorem c7_amended (b0 b1 : Nat) (h0 : b0 < 256) (h1 : b1 < 256) :
    ((b0 * 256 + b1) % 2 = 1 →
      Tmp007.ReadDieTempC b0 b1 = Except.error "nDV bit is set"
      ∧ Tmp007.ReadObjTempC b0 b1 = Except.error "nDV bit is set")
    ∧ ((b0 * 256 + b1) % 2 = 0 →
      Tmp007.ReadDieTempC b0 b1
        = Except.ok ((((Tmp007.toInt16 (b0 * 256 + b1)).fdiv 4 : Int) : ℚ) * 0.03125)
      ∧ Tmp007.ReadObjTempC b0 b1
        = Except.ok ((((Tmp007.toInt16 (b0 * 256 + b1)).fdiv 4 : Int) : ℚ) * 0.03125)) := by
  have hb0 : b0 % 256 = b0 := Nat.mod_eq_of_lt h0
  have hb1 : b1 % 256 = b1 := Nat.mod_eq_of_lt h1
  constructor
  · intro hodd
    have hcond : Tmp007.toInt16 (b0 * 256 + b1) % 2 ≠ 0 := by
      rw [toInt16_emod_two, hodd]; decide
    have hv : Tmp007.nDVtoBool (Tmp007.toInt16 (b0 * 256 + b1)) = false := by
      unfold Tmp007.nDVtoBool
      rw [if_pos hcond]
    refine ⟨?_, ?_⟩ <;>
      simp only [Tmp007.ReadDieTempC, Tmp007.ReadObjTempC, hb0, hb1, hv] <;>
      simp
  · intro heven
    have hcond : ¬ Tmp007.toInt16 (b0 * 256 + b1) % 2 ≠ 0 := by
      rw [toInt16_emod_two, heven]; decide
    have hv : Tmp007.nDVtoBool (Tmp007.toInt16 (b0 * 256 + b1)) = true := by
      unfold Tmp007.nDVtoBool
      rw [if_neg hcond]
    refine ⟨?_, ?_⟩ <;>
      simp only [Tmp007.ReadDieTempC, Tmp007.ReadObjTempC, hb0, hb1, hv] <;>
      simp

/-- Witness for c7_amended at an odd raw value (error) and an even raw value
(numeric reading). -/
theorem c7_witness :
    Tmp007.ReadDieTempC 0x00 0x01 = Except.error "nDV bit is set"
    ∧ Tmp007.ReadObjTempC 0x00 0x02
        = Except.ok ((((Tmp007.toInt16 (0x00 * 256 + 0x02)).fdiv 4 : Int) : ℚ) * 0.03125) :=
  ⟨((c7_amended 0x00 0x01 (by norm_num) (by norm_num)).1 (by norm_num)).1,
   ((c7_amended 0x00 0x02 (by norm_num) (by norm_num)).2 (by norm_num)).2⟩

/-- An EEPROM-phase error mapped into the filter-config error type is never
the FIR range error. -/
theorem map_eepromFailed_ne_firTooSmall (o : Option MlxBlock.EepromPhaseErr) :
    o.map MlxBlock.CfgErr.eepromFailed ≠ some MlxBlock.CfgErr.firTooSmall := by
  cases o <;> simp

/-- An EEPROM-phase error mapped into the filter-config error type is never
the 3-bit overflow range error. -/
theorem map_eepromFailed_ne_overflow (o : Option MlxBlock.EepromPhaseErr) :
    o.map MlxBlock.CfgErr.eepromFailed ≠ some MlxBlock.CfgErr.overflow3bit := by
  cases o <;> simp

/-- Claim C4 counterexample: in the part_002 revision, WriteFilterConfig with
the supplied fir = 4, iir = 0 and a previously read config word of 0 returns
the settling time 187.739 ms, computed from the OLD config word's FIR and IIR
fields, not the claimed 291.419 ms of the formula evaluated at the supplied
values. -/
theorem c4_counterexample :
    (MlxWord.WriteFilterConfig (Except.ok 0) none none 4 0).1 = 187.739
    ∧ (MlxWord.WriteFilterConfig (Except.ok 0) none none 4 0).1
        ≠ 9.719 + (iirSettingsMap 0 * (firSettingsMap 4 + 5.26))
          + (iirSettingsMap 0 * (firSettingsMap 4 + 12.542))
          + (0 * iirSettingsMap 0 * (firSettingsMap 4 + 12.542)) := by
  have h1 : (MlxWord.WriteFilterConfig (Except.ok 0) none none 4 0).1
      = MlxWord.SettlingTimeFromConfig 0 := rfl
  have h2 : MlxWord.SettlingTimeFromConfig 0 = 187.739 := by
    simp only [MlxWord.SettlingTimeFromConfig]
    norm_num [firSettingsMap, iirSettingsMap]
  constructor
  · rw [h1, h2]
  · rw [h1, h2]
    norm_num [firSettingsMap, iirSettingsMap]

/-- Claim C4 (amended): both revisions reject fir below 4, and fir or iir
above 7, with the corresponding range error and no bus activity; for every
in-range pair the mlx90614_driver.go revision accepts it (no range error) and
returns the settling time of the documented formula evaluated at the SUPPLIED
fir and iir, with dual = 1 exactly when bit 6 of the previously read config
word is set; the part_002 revision instead returns the formula evaluated at
the previously read config word's own FIR and IIR fields. -/
theorem c4_amended (a : Nat) (cfgRes : Except String Nat)
    (r1 r2 : Option String) (fir iir : Nat) :
    (fir < 4 → MlxBlock.WriteFilterConfig a cfgRes r1 r2 fir iir
        = (0, some MlxBlock.CfgErr.firTooSmall, []))
    ∧ (4 ≤ fir → 7 < fir ∨ 7 < iir →
        MlxBlock.WriteFilterConfig a cfgRes r1 r2 fir iir
          = (0, some MlxBlock.CfgErr.overflow3bit, []))
    ∧ (∀ cfg, 4 ≤ fir → fir ≤ 7 → iir ≤ 7 → cfgRes = Except.ok cfg →
        (MlxBlock.WriteFilterConfig a cfgRes r1 r2 fir iir).1
          = 9.719 + (iirSettingsMap iir * (firSettingsMap fir + 5.26))
            + (iirSettingsMap iir * (firSettingsMap fir + 12.542))
            + ((if (cfg % 65536) &&& 0x40 ≠ 0 then (1 : ℚ) else 0)
                * iirSettingsMap iir * (firSettingsMap fir + 12.542))
        ∧ (MlxBlock.WriteFilterConfig a cfgRes r1 r2 fir iir).2.1
            ≠ some MlxBlock.CfgErr.firTooSmall
        ∧ (MlxBlock.WriteFilterConfig a cfgRes r1 r2 fir iir).2.1
            ≠ some MlxBlock.CfgErr.overflow3bit)
    ∧ (∀ cfg, 4 ≤ fir → fir ≤ 7 → iir ≤ 7 → cfgRes = Except.ok cfg →
        (MlxWord.WriteFilterConfig cfgRes r1 r2 fir iir).1
          = MlxWord.SettlingTimeFromConfig (cfg % 65536)) := by
  refine ⟨?_, ?_, ?_, ?_⟩
  · intro h
    unfold MlxBlock.WriteFilterConfig
    rw [if_pos h]
  · intro h4 hov
    unfold MlxBlock.WriteFilterConfig
    rw [if_neg (by omega), if_pos hov]
  · intro cfg h4 h7 hi hcfg
    subst hcfg
    unfold MlxBlock.WriteFilterConfig
    rw [if_neg (by omega), if_neg (by omega)]
    exact ⟨rfl, map_eepromFailed_ne_firTooSmall _, map_eepromFailed_ne_overflow _⟩
  · intro cfg h4 h7 hi hcfg
    subst hcfg
    unfold MlxWord.WriteFilterConfig
    rw [if_neg (by omega), if_neg (by omega)]

/-- Witness for c4_amended: fir = 4, iir = 0 on a config word with the dual
bit set. -/
theorem c4_witness :
    (MlxBlock.WriteFilterConfig 0x5A (Except.ok 0x40) none none 4 0).1
      = 9.719 + (iirSettingsMap 0 * (firSettingsMap 4 + 5.26))
        + (iirSettingsMap 0 * (firSettingsMap 4 + 12.542))
        + ((if (0x40 % 65536) &&& 0x40 ≠ 0 then (1 : ℚ) else 0)
            * iirSettingsMap 0 * (firSettingsMap 4 + 12.542)) :=
  ((c4_amended 0x5A (Except.ok 0x40) none none 4 0).2.2.1 0x40
    (by norm_num) (by norm_num) (by norm_num) rfl).1

/-- Bits at position 3 and above of a 3-bit value are clear. -/
theorem testBit_of_lt_8 (x k : Nat) (hx : x < 8) (hk : 3 ≤ k) :
    x.testBit k = false := by
  apply Nat.testBit_lt_two_pow
  have h8 : (8 : Nat) ≤ 2 ^ k := by
    calc (8 : Nat) = 2 ^ 3 := rfl
    _ ≤ 2 ^ k := Nat.pow_le_pow_right (by norm_num) hk
  omega

/-- The part_002 config update leaves every bit outside the FIR and IIR
fields unchanged (bit positions where both masks keep the old value and
neither inserted field contributes). -/
theorem updW_preserves (c fir iir k : Nat) (hi8 : iir < 8)
    (hk3 : 3 ≤ k) (hmask1 : Nat.testBit 0xF8FF k = true)
    (hmask2 : Nat.testBit 0xFFF8 k = true)
    (hfir : (decide (k ≥ 8) && fir.testBit (k - 8)) = false) :
    (MlxWord.updatedConfig c fir iir).testBit k = c.testBit k := by
  unfold MlxWord.updatedConfig
  simp only [Nat.testBit_or, Nat.testBit_and, Nat.testBit_shiftLeft]
  rw [hmask1, hmask2, hfir, testBit_of_lt_8 iir k hi8 hk3]
  simp

/-- Bits 8..10 of the part_002 config update come from the supplied fir. -/
theorem updW_firbit (c fir iir k : Nat) (hi8 : iir < 8) (hk : 8 ≤ k)
    (hk2 : k ≤ 10) (hmask1 : Nat.testBit 0xF8FF k = false)
    (hmask2 : Nat.testBit 0xFFF8 k = true) :
    (MlxWord.updatedConfig c fir iir).testBit k = fir.testBit (k - 8) := by
  unfold MlxWord.updatedConfig
  simp only [Nat.testBit_or, Nat.testBit_and, Nat.testBit_shiftLeft]
  rw [hmask1, hmask2, testBit_of_lt_8 iir k hi8 (by omega), decide_eq_true hk]
  simp

/-- Bits 0..2 of the part_002 config update come from the supplied iir. -/
theorem updW_iirbit (c fir iir k : Nat) (hk : Nat.testBit 0xFFF8 k = false) :
    (MlxWord.updatedConfig c fir iir).testBit k = iir.testBit k := by
  unfold MlxWord.updatedConfig
  simp only [Nat.testBit_or, Nat.testBit_and, Nat.testBit_shiftLeft]
  rw [hk]
  simp

/-- The FIR field (bits 10..8) of the part_002 config update equals the
supplied fir. -/
theorem updW_fir (c fir iir : Nat) (hf8 : fir < 8) (hi8 : iir < 8) :
    ((MlxWord.updatedConfig c fir iir) >>> 8) &&& 7 = fir := by
  apply Nat.eq_of_testBit_eq
  intro j
  rw [Nat.testBit_and, Nat.testBit_shiftRight]
  by_cases hj : j < 3
  · interval_cases j
    · rw [updW_firbit c fir iir (8 + 0) hi8 (by norm_num) (by norm_num)
          (by decide) (by decide)]
      simp [show Nat.testBit 7 0 = true from by decide]
    · rw [updW_firbit c fir iir (8 + 1) hi8 (by norm_num) (by norm_num)
          (by decide) (by decide)]
      simp [show Nat.testBit 7 1 = true from by decide]
    · rw [updW_firbit c fir iir (8 + 2) hi8 (by norm_num) (by norm_num)
          (by decide) (by decide)]
      simp [show Nat.testBit 7 2 = true from by decide]
  · push_neg at hj
    rw [testBit_of_lt_8 fir j hf8 hj, testBit_of_lt_8 7 j (by norm_num) hj]
    simp

/-- The IIR field (bits 2..0) of the part_002 config update equals the
supplied iir. -/
theorem updW_iir (c fir iir : Nat) (hi8 : iir < 8) :
    (MlxWord.updatedConfig c fir iir) &&& 7 = iir := by
  apply Nat.eq_of_testBit_eq
  intro j
  rw [Nat.testBit_and]
  by_cases hj : j < 3
  · interval_cases j
    · rw [updW_iirbit c fir iir 0 (by decide),
          show Nat.testBit 7 0 = true from by decide]
      simp
    · rw [updW_iirbit c fir iir 1 (by decide),
          show Nat.testBit 7 1 = true from by decide]
      simp
    · rw [updW_iirbit c fir iir 2 (by decide),
          show Nat.testBit 7 2 = true from by decide]
      simp
  · push_neg at hj
    rw [testBit_of_lt_8 iir j hi8 hj, testBit_of_lt_8 7 j (by norm_num) hj]
    simp

set_option maxRecDepth 20000 in
/-- Claim C5 counterexample: in the mlx90614_driver.go revision the new
field bits are OR-ed in without clearing the old ones, so with prior config
0x0700 (old FIR field 7) and supplied fir = 4, the config word written back
has FIR field 7, not 4; the word written in the EEPROM data phase is exactly
that OR-ed word. -/
theorem c5_counterexample :
    ((MlxBlock.updatedConfig 0x0700 4 0) >>> 8) &&& 7 = 7
    ∧ (7 : Nat) ≠ 4
    ∧ (MlxBlock.WriteFilterConfig 0x5A (Except.ok 0x0700) none none 4 0).2.2
        = [BusOp.readReg mlx90614RegisterConfig,
           BusOp.writeBlock mlx90614RegisterConfig
             (MlxBlock.writePacket 0x5A mlx90614RegisterConfig 0),
           BusOp.writeBlock mlx90614RegisterConfig
             (MlxBlock.writePacket 0x5A mlx90614RegisterConfig
               (MlxBlock.updatedConfig 0x0700 4 0))] :=
  ⟨by decide, by decide, rfl⟩

/-- Claim C5 (amended, scoped to the part_002 revision): for every in-range
fir and iir and every prior config word, the config word written back has FIR
field (bits 10..8) equal to fir, IIR field (bits 2..0) equal to iir, and
every other bit of the 16-bit word (3, 4, 5, 6, 7, 11, 12, 13, 14, 15 -
including all guard bits) equal to the corresponding bit of the previously
read config; and WriteFilterConfig writes exactly that word in the EEPROM
data phase.  In the mlx90614_driver.go revision the fields are OR-ed without
clearing (see the counterexample). -/
theorem c5_amended (config fir iir : Nat) (hf4 : 4 ≤ fir) (hf : fir ≤ 7)
    (hi : iir ≤ 7) :
    ((MlxWord.updatedConfig config fir iir) >>> 8) &&& 7 = fir
    ∧ (MlxWord.updatedConfig config fir iir) &&& 7 = iir
    ∧ ((MlxWord.updatedConfig config fir iir).testBit 3 = config.testBit 3
      ∧ (MlxWord.updatedConfig config fir iir).testBit 4 = config.testBit 4
      ∧ (MlxWord.updatedConfig config fir iir).testBit 5 = config.testBit 5
      ∧ (MlxWord.updatedConfig config fir iir).testBit 6 = config.testBit 6
      ∧ (MlxWord.updatedConfig config fir iir).testBit 7 = config.testBit 7
      ∧ (MlxWord.updatedConfig config fir iir).testBit 11 = config.testBit 11
      ∧ (MlxWord.updatedConfig config fir iir).testBit 12 = config.testBit 12
      ∧ (MlxWord.updatedConfig config fir iir).testBit 13 = config.testBit 13
      ∧ (MlxWord.updatedConfig config fir iir).testBit 14 = config.testBit 14
      ∧ (MlxWord.updatedConfig config fir iir).testBit 15 = config.testBit 15)
    ∧ ∀ r2, (MlxWord.WriteFilterConfig (Except.ok config) none r2 fir iir).2.2
        = [BusOp.readReg mlx90614RegisterConfig,
           BusOp.writeWord mlx90614RegisterConfig 0,
           BusOp.writeWord mlx90614RegisterConfig
             (MlxWord.updatedConfig (config % 65536) fir iir)] := by
  have hf8 : fir < 8 := by omega
  have hi8 : iir < 8 := by omega
  refine ⟨updW_fir config fir iir hf8 hi8, updW_iir config fir iir hi8,
    ⟨?_, ?_, ?_, ?_, ?_, ?_, ?_, ?_, ?_, ?_⟩, ?_⟩
  · exact updW_preserves config fir iir 3 hi8 (by norm_num) (by decide)
      (by decide) (by simp)
  · exact updW_preserves config fir iir 4 hi8 (by norm_num) (by decide)
      (by decide) (by simp)
  · exact updW_preserves config fir iir 5 hi8 (by norm_num) (by decide)
      (by decide) (by simp)
  · exact updW_preserves config fir iir 6 hi8 (by norm_num) (by decide)
      (by decide) (by simp)
  · exact updW_preserves config fir iir 7 hi8 (by norm_num) (by decide)
      (by decide) (by simp)
  · exact updW_preserves config fir iir 11 hi8 (by norm_num) (by decide)
      (by decide) (by simp [testBit_of_lt_8 fir 3 hf8 (by norm_num)])
  · exact updW_preserves config fir iir 12 hi8 (by norm_num) (by decide)
      (by decide) (by simp [testBit_of_lt_8 fir 4 hf8 (by norm_num)])
  · exact updW_preserves config fir iir 13 hi8 (by norm_num) (by decide)
      (by decide) (by simp [testBit_of_lt_8 fir 5 hf8 (by norm_num)])
  · exact updW_preserves config fir iir 14 hi8 (by norm_num) (by decide)
      (by decide) (by simp [testBit_of_lt_8 fir 6 hf8 (by norm_num)])
  · exact updW_preserves config fir iir 15 hi8 (by norm_num) (by decide)
      (by decide) (by simp [testBit_of_lt_8 fir 7 hf8 (by norm_num)])
  · intro r2
    unfold MlxWord.WriteFilterConfig
    rw [if_neg (by omega), if_neg (by omega)]
    cases r2 <;> rfl

/-- Witness for c5_amended: prior config with all bits set, fir = 4,
iir = 0. -/
theorem c5_witness :
    ((MlxWord.updatedConfig 0xFFFF 4 0) >>> 8) &&& 7 = 4 :=
  (c5_amended 0xFFFF 4 0 (by norm_num) (by norm_num) (by norm_num)).1
